import Mathlib

/-!
Shallow embedding of `src/landing/docs/integrations/fastapi-middleware.py`
(agent-identity middleware for a web framework).

Modelling conventions:
* Time is `Nat`, in seconds; `datetime.now()` at the moment of a call is an
  explicit parameter `now`.  `CACHE_TTL = timedelta(minutes=5)` is 300 seconds.
* The module-level dictionary `_cache` is an explicit parameter and result:
  a `Cache` maps an identifier to `some (insertion_time, stored_value)` or
  `none` when the key is absent.  Python dict assignment is `cacheSet`.
* The outbound `httpx` GET is an oracle parameter `RemoteResult`: either the
  call raises some exception (`raises`, covering network failure, timeout,
  `response.json()` parse errors and pydantic validation errors - everything
  the `except Exception` arm catches), or it returns a response with a status
  code and a body already typed against the documented JSON schema (the
  fields of `AgentIdentity`; an ill-typed body is the `raises` case, since
  constructing the pydantic model from it raises inside the `try`).
* Each operation returns its value together with the resulting cache and the
  number of remote calls it performed, so that call-counting and cache-frame
  claims are statable.  `raise HTTPException` is an `Except.error`.
* `reputation` is a Python float compared with `<`; it is embedded as `Rat`
  (JSON cannot carry NaN or infinities, so finite-value semantics suffice).
* Free-text `message` fields of the HTTP error payloads are not modelled;
  the 403 message interpolates the threshold, which is kept as the structured
  `min_reputation` argument of `Detail.insufficientReputation`.
-/

namespace AgentMW

/-- CACHE_TTL = timedelta(minutes=5), measured in seconds. -/
def CACHE_TTL : Nat := 300

/-- Pydantic model `AgentIdentity`: verified agent identity data. -/
structure AgentIdentity where
  verified : Bool
  did : String
  name : String
  reputation : Rat
  tasks_completed : Int
  registered_at : String
  flags : Int
  verification_url : String
  deriving DecidableEq

/-- Outcome of the outbound `client.get(f"{AGENT_IDENTITY_API}/verify/{did}")`:
either the call raises (any exception caught by the `except Exception` arm),
or it yields a response with a status code and a well-typed JSON body. -/
inductive RemoteResult where
  | raises : RemoteResult
  | resp (status_code : Nat) (data : AgentIdentity) : RemoteResult
  deriving DecidableEq

/-- The module-level `_cache : dict[str, tuple[datetime, Optional[AgentIdentity]]]`. -/
def Cache : Type := String → Option (Nat × Option AgentIdentity)

/-- The initial empty `_cache = {}`. -/
def emptyCache : Cache := fun _ => none

/-- Python dict assignment `_cache[did] = v`. -/
def cacheSet (c : Cache) (k : String) (v : Nat × Option AgentIdentity) : Cache :=
  fun q => if q = k then some v else c q

/-- Result of one `verify_agent` invocation: the returned
`Optional[AgentIdentity]`, the cache afterwards, and how many remote calls
were performed (0 or 1). -/
structure VerifyResult where
  ret : Option AgentIdentity
  cache : Cache
  calls : Nat

/-- The body of the `try` block of `verify_agent`: perform the remote call and
act on its outcome (reached only when there is no fresh cache entry). -/
def fetchAndCache (did : String) (c : Cache) (now : Nat) (remote : RemoteResult) : VerifyResult :=
  match remote with
  | .raises => ⟨none, c, 1⟩
  | .resp status_code data =>
    if status_code ≠ 200 then ⟨none, c, 1⟩
    else if data.verified then ⟨some data, cacheSet c did (now, some data), 1⟩
    else ⟨none, cacheSet c did (now, none), 1⟩

/-- `verify_agent(did)`: consult the cache; on a fresh entry return its stored
value, otherwise fall through to the remote call. -/
def verify_agent (did : String) (c : Cache) (now : Nat) (remote : RemoteResult) : VerifyResult :=
  match c did with
  | some (cached_time, cached_data) =>
    if now < cached_time + CACHE_TTL then ⟨cached_data, c, 0⟩
    else fetchAndCache did c now remote
  | none => fetchAndCache did c now remote

/-- Python truthiness of an `Optional[str]`: `None` and the empty string are
falsy, every other string is truthy. -/
def truthy : Option String → Bool
  | none => false
  | some s => s != ""

/-- Python `a or b` on `Optional[str]` values: `a` when `a` is truthy,
otherwise `b`. -/
def pyOr (a b : Option String) : Option String :=
  if truthy a then a else b

/-- Structured payloads (`detail` dictionaries) of the three
`HTTPException`s raised by the middleware.  Free-text `message` entries are
not modelled; the threshold interpolated into the 403 message is the
`min_reputation` field. -/
inductive Detail where
  | identityRequired (error register_url : String) : Detail
  | agentNotVerified (error did register_url : String) : Detail
  | insufficientReputation (error : String) (min_reputation your_reputation : Rat)
      (did : String) : Detail
  deriving DecidableEq

/-- A raised `fastapi.HTTPException`: status code plus structured detail. -/
structure HTTPException where
  status_code : Nat
  detail : Detail
  deriving DecidableEq

/-- Result of one gate invocation: either the identity record it yields or
the `HTTPException` it raises, plus the cache afterwards and the number of
remote calls performed. -/
structure GateResult where
  result : Except HTTPException AgentIdentity
  cache : Cache
  calls : Nat

/-- The 401 raised when no identifier header is present. -/
def identityRequired401 : HTTPException :=
  ⟨401, .identityRequired "Agent identity required" "https://agent-identity.onrender.com/"⟩

/-- The 401 raised when the remote verification denies the identifier. -/
def notVerified401 (agent_did : String) : HTTPException :=
  ⟨401, .agentNotVerified "Agent not verified" agent_did "https://agent-identity.onrender.com/"⟩

/-- `require_agent`: extract `agent_did = x_agent_did or x_agent_identity`;
`if not agent_did` (i.e. it is `None` or the empty string) raise the
identity-required 401; otherwise run `verify_agent` and either raise the
not-verified 401 or return the record. -/
def require_agent (x_agent_did x_agent_identity : Option String) (c : Cache) (now : Nat)
    (remote : RemoteResult) : GateResult :=
  match pyOr x_agent_did x_agent_identity with
  | none => ⟨.error identityRequired401, c, 0⟩
  | some agent_did =>
    if agent_did = "" then ⟨.error identityRequired401, c, 0⟩
    else
      let r := verify_agent agent_did c now remote
      match r.ret with
      | none => ⟨.error (notVerified401 agent_did), r.cache, r.calls⟩
      | some agent => ⟨.ok agent, r.cache, r.calls⟩

/-- `optional_agent`: same header extraction; yield `None` without any call
when no identifier is present, otherwise return whatever `verify_agent`
returns.  Its return type has no failure channel: it never raises. -/
def optional_agent (x_agent_did x_agent_identity : Option String) (c : Cache) (now : Nat)
    (remote : RemoteResult) : VerifyResult :=
  match pyOr x_agent_did x_agent_identity with
  | none => ⟨none, c, 0⟩
  | some agent_did =>
    if agent_did = "" then ⟨none, c, 0⟩
    else verify_agent agent_did c now remote

/-- The gate produced by the factory `require_reputation(min_reputation)`:
its inner `dependency` receives the result of `Depends(require_agent)` (a
raised exception propagates unchanged before the threshold is compared),
then raises the 403 when `agent.reputation < min_reputation` and otherwise
returns the record unchanged. -/
def require_reputation (min_reputation : Rat) (x_agent_did x_agent_identity : Option String)
    (c : Cache) (now : Nat) (remote : RemoteResult) : GateResult :=
  let g := require_agent x_agent_did x_agent_identity c now remote
  match g.result with
  | .error e => ⟨.error e, g.cache, g.calls⟩
  | .ok agent =>
    if agent.reputation < min_reputation then
      ⟨.error ⟨403, .insufficientReputation "Insufficient reputation" min_reputation
        agent.reputation agent.did⟩, g.cache, g.calls⟩
    else ⟨.ok agent, g.cache, g.calls⟩

/-- Whether the cache holds a fresh entry for `did` at time `now` (the
condition under which `verify_agent` returns without a remote call). -/
def isFresh (c : Cache) (did : String) (now : Nat) : Bool :=
  match c did with
  | some (t, _) => now < t + CACHE_TTL
  | none => false

/-- Modelled from the spec: the header-selection rule as the claim states it,
"taking the primary header X-Agent-DID when it is present, and otherwise the
fallback header X-Agent-Identity; the first one present wins".  Used only to
compare against the selection the code performs (`pyOr`). -/
def selectSpecHeader (primary fallback : Option String) : Option String :=
  match primary with
  | some s => some s
  | none => fallback

/-! ## Helper lemmas (shared) -/

/-- When the cache has no fresh entry for `did`, `verify_agent` falls through
to the remote-call body. -/
theorem verify_agent_of_not_fresh (did : String) (c : Cache) (now : Nat) (remote : RemoteResult)
    (hmiss : isFresh c did now = false) :
    verify_agent did c now remote = fetchAndCache did c now remote := by
  unfold isFresh at hmiss
  rcases hc : c did with _ | ⟨t, v⟩
  · simp [verify_agent, hc]
  · rw [hc] at hmiss
    simp only [decide_eq_false_iff_not] at hmiss
    simp [verify_agent, hc, hmiss]

/-- The remote-call body always performs exactly one remote call. -/
theorem fetchAndCache_calls (did : String) (c : Cache) (now : Nat) (remote : RemoteResult) :
    (fetchAndCache did c now remote).calls = 1 := by
  cases remote with
  | raises => rfl
  | resp s d =>
    rcases eq_or_ne s 200 with rfl | hs
    · by_cases hd : d.verified <;> simp [fetchAndCache, hd]
    · simp [fetchAndCache, hs]

/-- A dict assignment never removes a key. -/
theorem cacheSet_isSome (c : Cache) (k q : String) (v : Nat × Option AgentIdentity)
    (h : (c q).isSome = true) : (cacheSet c k v q).isSome = true := by
  unfold cacheSet
  by_cases hq : q = k <;> simp [hq, h]

/-- A dict assignment leaves every other key unchanged. -/
theorem cacheSet_frame (c : Cache) (k q : String) (v : Nat × Option AgentIdentity)
    (h : q ≠ k) : cacheSet c k v q = c q := by
  unfold cacheSet
  rw [if_neg h]

/-- The cache after the remote-call body is either unchanged or a single
assignment under `did`. -/
theorem fetchAndCache_cache_cases (did : String) (c : Cache) (now : Nat) (remote : RemoteResult) :
    (fetchAndCache did c now remote).cache = c ∨
    ∃ v, (fetchAndCache did c now remote).cache = cacheSet c did v := by
  cases remote with
  | raises => exact Or.inl rfl
  | resp s d =>
    rcases eq_or_ne s 200 with rfl | hs
    · by_cases hd : d.verified
      · exact Or.inr ⟨(now, some d), by simp [fetchAndCache, hd]⟩
      · exact Or.inr ⟨(now, none), by simp [fetchAndCache, hd]⟩
    · exact Or.inl (by simp [fetchAndCache, hs])

/-- The cache after `verify_agent` is either unchanged or a single
assignment under `did`. -/
theorem verify_agent_cache_cases (did : String) (c : Cache) (now : Nat) (remote : RemoteResult) :
    (verify_agent did c now remote).cache = c ∨
    ∃ v, (verify_agent did c now remote).cache = cacheSet c did v := by
  rcases hc : c did with _ | ⟨t, v⟩
  · simpa [verify_agent, hc] using fetchAndCache_cache_cases did c now remote
  · by_cases hf : now < t + CACHE_TTL
    · simp [verify_agent, hc, hf]
    · simpa [verify_agent, hc, hf] using fetchAndCache_cache_cases did c now remote

/-! ## C1: fresh cache hit returns the stored value with no remote call and
no cache write -/

/-- C1: if the cache holds an entry for `did` whose insertion time plus
`CACHE_TTL` is still in the future at `now`, then `verify_agent` returns the
stored value (possibly a cached negative), performs zero remote calls, and
leaves the cache exactly as it was. -/
theorem verify_agent_cache_hit (did : String) (c : Cache) (now t : Nat)
    (v : Option AgentIdentity) (remote : RemoteResult)
    (hentry : c did = some (t, v)) (hfresh : now < t + CACHE_TTL) :
    verify_agent did c now remote = ⟨v, c, 0⟩ := by
  simp [verify_agent, hentry, hfresh]

/-- Witness for C1: a cached negative stored at time 0 is still fresh at
time 100, so the call returns the cached `none`, makes no remote call, and
writes nothing. -/
theorem verify_agent_cache_hit_witness :
    verify_agent "did:x:1" (cacheSet emptyCache "did:x:1" (0, none)) 100 .raises
      = ⟨none, cacheSet emptyCache "did:x:1" (0, none), 0⟩ :=
  verify_agent_cache_hit "did:x:1" (cacheSet emptyCache "did:x:1" (0, none)) 100 0 none
    .raises (by rfl) (by decide)

/-! ## C2: cache miss performs one remote call and caches a 200 outcome -/

/-- C2: with no fresh cache entry for `did`, `verify_agent` performs exactly
one remote call whatever the outcome; on a 200 response whose verification
flag is true it returns the record built from the body and stores it under
`did` at time `now`; on a 200 response whose flag is false it stores `none`
under `did` at time `now` and returns `none`. -/
theorem verify_agent_miss_spec (did : String) (c : Cache) (now status_code : Nat)
    (data : AgentIdentity) (hmiss : isFresh c did now = false) :
    (∀ remote, (verify_agent did c now remote).calls = 1) ∧
    (status_code = 200 → data.verified = true →
      verify_agent did c now (.resp status_code data)
        = ⟨some data, cacheSet c did (now, some data), 1⟩) ∧
    (status_code = 200 → data.verified = false →
      verify_agent did c now (.resp status_code data)
        = ⟨none, cacheSet c did (now, none), 1⟩) := by
  refine ⟨fun remote => ?_, fun h200 hv => ?_, fun h200 hv => ?_⟩
  · rw [verify_agent_of_not_fresh did c now remote hmiss]
    exact fetchAndCache_calls did c now remote
  · subst h200
    rw [verify_agent_of_not_fresh did c now _ hmiss]
    simp [fetchAndCache, hv]
  · subst h200
    rw [verify_agent_of_not_fresh did c now _ hmiss]
    simp [fetchAndCache, hv]

/-- Witness for C2: on an empty cache (no fresh entry for "did:x:1"), a 200
response with the verified flag true is returned and cached. -/
theorem verify_agent_miss_spec_witness :
    verify_agent "did:x:1" emptyCache 7 (.resp 200 ⟨true, "did:x:1", "A", 5, 3, "2024", 0, "u"⟩)
      = ⟨some ⟨true, "did:x:1", "A", 5, 3, "2024", 0, "u"⟩,
         cacheSet emptyCache "did:x:1" (7, some ⟨true, "did:x:1", "A", 5, 3, "2024", 0, "u"⟩),
         1⟩ :=
  (verify_agent_miss_spec "did:x:1" emptyCache 7 200
    ⟨true, "did:x:1", "A", 5, 3, "2024", 0, "u"⟩ (by rfl)).2.1 rfl rfl

/-! ## C3: remote failure or non-200 status returns absence and is not
cached -/

/-- C3: with no fresh cache entry, if the remote call raises (any exception)
or returns a non-200 status, `verify_agent` returns `none` and the cache is
exactly what it was before the call.  No exception propagates: in this
embedding the function is total and the raising outcome is absorbed into the
`none` return, mirroring the `except Exception` arm. -/
theorem verify_agent_remote_failure (did : String) (c : Cache) (now : Nat)
    (remote : RemoteResult) (hmiss : isFresh c did now = false)
    (herr : remote = .raises ∨ ∃ s d, remote = .resp s d ∧ s ≠ 200) :
    (verify_agent did c now remote).ret = none ∧
    (verify_agent did c now remote).cache = c := by
  rw [verify_agent_of_not_fresh did c now remote hmiss]
  rcases herr with h | ⟨s, d, h, hs⟩
  · subst h
    exact ⟨rfl, rfl⟩
  · subst h
    constructor <;> simp [fetchAndCache, hs]

/-- Witness for C3: on an empty cache, a 500 response yields `none` and
leaves the cache empty. -/
theorem verify_agent_remote_failure_witness :
    (verify_agent "did:x:1" emptyCache 7
        (.resp 500 ⟨true, "did:x:1", "A", 5, 3, "2024", 0, "u"⟩)).ret = none ∧
    (verify_agent "did:x:1" emptyCache 7
        (.resp 500 ⟨true, "did:x:1", "A", 5, 3, "2024", 0, "u"⟩)).cache = emptyCache :=
  verify_agent_remote_failure "did:x:1" emptyCache 7
    (.resp 500 ⟨true, "did:x:1", "A", 5, 3, "2024", 0, "u"⟩) (by rfl)
    (Or.inr ⟨500, ⟨true, "did:x:1", "A", 5, 3, "2024", 0, "u"⟩, rfl, by decide⟩)

/-! ## C4: the required-identity gate -/

/-- C4: when neither header yields an identifier (the Python-truthy selection
is falsy), `require_agent` fails with the 401 identity-required signal and
performs zero remote calls; when an identifier `s` is selected, a `none`
verifier result yields the 401 not-verified signal carrying `s`, and a
record result is returned as is (cache and call count are those of the
verifier in both cases). -/
theorem require_agent_spec (x y : Option String) (c : Cache) (now : Nat)
    (remote : RemoteResult) :
    (truthy (pyOr x y) = false →
      require_agent x y c now remote = ⟨.error identityRequired401, c, 0⟩) ∧
    (∀ s, pyOr x y = some s → s ≠ "" →
      ((verify_agent s c now remote).ret = none →
        require_agent x y c now remote
          = ⟨.error (notVerified401 s), (verify_agent s c now remote).cache,
             (verify_agent s c now remote).calls⟩) ∧
      (∀ a, (verify_agent s c now remote).ret = some a →
        require_agent x y c now remote
          = ⟨.ok a, (verify_agent s c now remote).cache,
             (verify_agent s c now remote).calls⟩)) := by
  constructor
  · intro hf
    rcases hp : pyOr x y with _ | s
    · simp [require_agent, hp]
    · rw [hp] at hf
      simp only [truthy, bne_eq_false_iff_eq] at hf
      subst hf
      simp [require_agent, hp]
  · intro s hp hs
    constructor
    · intro hn
      simp [require_agent, hp, hs, hn]
    · intro a ha
      simp [require_agent, hp, hs, ha]

/-- Witness for C4: no headers gives the identity-required 401 with zero
calls; a present identifier that the remote denies (here: the call raises)
gives the not-verified 401 carrying the identifier; a present identifier
approved with a 200 returns the record. -/
theorem require_agent_spec_witness :
    require_agent none none emptyCache 0 .raises = ⟨.error identityRequired401, emptyCache, 0⟩ ∧
    require_agent (some "did:x:1") none emptyCache 0 .raises
      = ⟨.error (notVerified401 "did:x:1"),
         (verify_agent "did:x:1" emptyCache 0 .raises).cache,
         (verify_agent "did:x:1" emptyCache 0 .raises).calls⟩ ∧
    require_agent (some "did:x:1") none emptyCache 0
        (.resp 200 ⟨true, "did:x:1", "A", 5, 3, "2024", 0, "u"⟩)
      = ⟨.ok ⟨true, "did:x:1", "A", 5, 3, "2024", 0, "u"⟩,
         (verify_agent "did:x:1" emptyCache 0
           (.resp 200 ⟨true, "did:x:1", "A", 5, 3, "2024", 0, "u"⟩)).cache,
         (verify_agent "did:x:1" emptyCache 0
           (.resp 200 ⟨true, "did:x:1", "A", 5, 3, "2024", 0, "u"⟩)).calls⟩ :=
  ⟨(require_agent_spec none none emptyCache 0 .raises).1 (by decide),
   ((require_agent_spec (some "did:x:1") none emptyCache 0 .raises).2 "did:x:1"
      rfl (by decide)).1 rfl,
   ((require_agent_spec (some "did:x:1") none emptyCache 0
      (.resp 200 ⟨true, "did:x:1", "A", 5, 3, "2024", 0, "u"⟩)).2 "did:x:1"
      rfl (by decide)).2 ⟨true, "did:x:1", "A", 5, 3, "2024", 0, "u"⟩ rfl⟩

/-! ## C5: the reputation-threshold gate -/

/-- C5: the gate produced by `require_reputation T` propagates any failure of
`require_agent` unchanged (before the threshold is compared); on a record
with reputation at least `T` it returns the record unchanged; on a record
with reputation below `T` it fails with the 403 insufficient-reputation
signal carrying both `T` and the actual reputation (and the agent did). -/
theorem require_reputation_spec (T : Rat) (x y : Option String) (c : Cache) (now : Nat)
    (remote : RemoteResult) :
    (∀ e, (require_agent x y c now remote).result = .error e →
      require_reputation T x y c now remote
        = ⟨.error e, (require_agent x y c now remote).cache,
           (require_agent x y c now remote).calls⟩) ∧
    (∀ a, (require_agent x y c now remote).result = .ok a →
      (T ≤ a.reputation →
        require_reputation T x y c now remote
          = ⟨.ok a, (require_agent x y c now remote).cache,
             (require_agent x y c now remote).calls⟩) ∧
      (a.reputation < T →
        require_reputation T x y c now remote
          = ⟨.error ⟨403, .insufficientReputation "Insufficient reputation" T a.reputation a.did⟩,
             (require_agent x y c now remote).cache,
             (require_agent x y c now remote).calls⟩)) := by
  constructor
  · intro e he
    simp [require_reputation, he]
  · intro a ha
    constructor
    · intro hge
      have hlt : ¬ a.reputation < T := not_lt.2 hge
      simp [require_reputation, ha, hlt]
    · intro hlt
      simp [require_reputation, ha, hlt]

/-- Witness for C5 at threshold 4: a missing identifier propagates the 401
unchanged; reputation 5 passes through; reputation 3 yields the 403 carrying
the threshold 4 and the actual value 3. -/
theorem require_reputation_spec_witness :
    require_reputation 4 none none emptyCache 0 .raises
      = ⟨.error identityRequired401, (require_agent none none emptyCache 0 .raises).cache,
         (require_agent none none emptyCache 0 .raises).calls⟩ ∧
    require_reputation 4 (some "did:x:1") none emptyCache 0
        (.resp 200 ⟨true, "did:x:1", "A", 5, 3, "2024", 0, "u"⟩)
      = ⟨.ok ⟨true, "did:x:1", "A", 5, 3, "2024", 0, "u"⟩,
         (require_agent (some "did:x:1") none emptyCache 0
           (.resp 200 ⟨true, "did:x:1", "A", 5, 3, "2024", 0, "u"⟩)).cache,
         (require_agent (some "did:x:1") none emptyCache 0
           (.resp 200 ⟨true, "did:x:1", "A", 5, 3, "2024", 0, "u"⟩)).calls⟩ ∧
    require_reputation 4 (some "did:x:2") none emptyCache 0
        (.resp 200 ⟨true, "did:x:2", "B", 3, 3, "2024", 0, "u"⟩)
      = ⟨.error ⟨403, .insufficientReputation "Insufficient reputation" 4 3 "did:x:2"⟩,
         (require_agent (some "did:x:2") none emptyCache 0
           (.resp 200 ⟨true, "did:x:2", "B", 3, 3, "2024", 0, "u"⟩)).cache,
         (require_agent (some "did:x:2") none emptyCache 0
           (.resp 200 ⟨true, "did:x:2", "B", 3, 3, "2024", 0, "u"⟩)).calls⟩ :=
  ⟨(require_reputation_spec 4 none none emptyCache 0 .raises).1 identityRequired401 rfl,
   ((require_reputation_spec 4 (some "did:x:1") none emptyCache 0
      (.resp 200 ⟨true, "did:x:1", "A", 5, 3, "2024", 0, "u"⟩)).2
      ⟨true, "did:x:1", "A", 5, 3, "2024", 0, "u"⟩ rfl).1 (by norm_num),
   ((require_reputation_spec 4 (some "did:x:2") none emptyCache 0
      (.resp 200 ⟨true, "did:x:2", "B", 3, 3, "2024", 0, "u"⟩)).2
      ⟨true, "did:x:2", "B", 3, 3, "2024", 0, "u"⟩ rfl).2 (by norm_num)⟩

/-! ## C6: the optional-identity gate -/

/-- C6: when neither header yields an identifier, `optional_agent` returns
`none` with zero remote calls and an unchanged cache; when an identifier `s`
is selected, its whole result (returned value, cache, call count) is exactly
that of `verify_agent s`.  It never raises a failure signal: its return type
`VerifyResult` has no exception channel at all, unlike `GateResult`. -/
theorem optional_agent_spec (x y : Option String) (c : Cache) (now : Nat)
    (remote : RemoteResult) :
    (truthy (pyOr x y) = false → optional_agent x y c now remote = ⟨none, c, 0⟩) ∧
    (∀ s, pyOr x y = some s → s ≠ "" →
      optional_agent x y c now remote = verify_agent s c now remote) := by
  constructor
  · intro hf
    rcases hp : pyOr x y with _ | s
    · simp [optional_agent, hp]
    · rw [hp] at hf
      simp only [truthy, bne_eq_false_iff_eq] at hf
      subst hf
      simp [optional_agent, hp]
  · intro s hp hs
    simp [optional_agent, hp, hs]

/-- Witness for C6: no headers gives `none` with zero calls; a present
identifier whose remote verification raises gives exactly the verifier
result. -/
theorem optional_agent_spec_witness :
    optional_agent none none emptyCache 0 .raises = ⟨none, emptyCache, 0⟩ ∧
    optional_agent (some "did:x:1") none emptyCache 0 .raises
      = verify_agent "did:x:1" emptyCache 0 .raises :=
  ⟨(optional_agent_spec none none emptyCache 0 .raises).1 (by decide),
   (optional_agent_spec (some "did:x:1") none emptyCache 0 .raises).2 "did:x:1"
     rfl (by decide)⟩

/-! ## C7: header selection order (corrected) -/

/-- Counterexample for C7 as stated: when the primary header is present but
carries the empty string, the spec-worded rule ("the first one present
wins") selects the empty string, while the code's `x or y` skips the falsy
empty string and selects the fallback value; `optional_agent` then verifies
the fallback identifier. -/
theorem header_select_counterexample :
    selectSpecHeader (some "") (some "did:x:2") = some "" ∧
    pyOr (some "") (some "did:x:2") = some "did:x:2" ∧
    optional_agent (some "") (some "did:x:2") emptyCache 0 RemoteResult.raises
      = verify_agent "did:x:2" emptyCache 0 RemoteResult.raises :=
  ⟨rfl, rfl, rfl⟩

/-- C7 amended: both gates select the identifier as Python `x or y` does: the
primary header value wins when it is truthy (present and nonempty),
otherwise the fallback value is used; a present-but-empty primary header is
skipped.  Both gates behave exactly as if the selected value had arrived in
the primary header alone. -/
theorem header_select_amended (x y : Option String) (c : Cache) (now : Nat)
    (remote : RemoteResult) :
    (truthy x = true → pyOr x y = x) ∧
    (truthy x = false → pyOr x y = y) ∧
    require_agent x y c now remote = require_agent (pyOr x y) none c now remote ∧
    optional_agent x y c now remote = optional_agent (pyOr x y) none c now remote := by
  have key₁ : require_agent x y c now remote = require_agent (pyOr x y) none c now remote := by
    rcases x with _ | sx
    · rcases y with _ | sy
      · rfl
      · by_cases hsy : sy = ""
        · subst hsy; rfl
        · simp [require_agent, pyOr, truthy, hsy]
    · by_cases hsx : sx = ""
      · subst hsx
        rcases y with _ | sy
        · rfl
        · by_cases hsy : sy = ""
          · subst hsy; rfl
          · simp [require_agent, pyOr, truthy, hsy]
      · simp [require_agent, pyOr, truthy, hsx]
  have key₂ : optional_agent x y c now remote = optional_agent (pyOr x y) none c now remote := by
    rcases x with _ | sx
    · rcases y with _ | sy
      · rfl
      · by_cases hsy : sy = ""
        · subst hsy; rfl
        · simp [optional_agent, pyOr, truthy, hsy]
    · by_cases hsx : sx = ""
      · subst hsx
        rcases y with _ | sy
        · rfl
        · by_cases hsy : sy = ""
          · subst hsy; rfl
          · simp [optional_agent, pyOr, truthy, hsy]
      · simp [optional_agent, pyOr, truthy, hsx]
  exact ⟨fun h => by simp [pyOr, h], fun h => by simp [pyOr, h], key₁, key₂⟩

/-- Witness for the amended C7: a truthy primary wins; a missing primary
falls back. -/
theorem header_select_amended_witness :
    pyOr (some "did:a") (some "did:b") = some "did:a" ∧
    pyOr none (some "did:b") = some "did:b" :=
  ⟨(header_select_amended (some "did:a") (some "did:b") emptyCache 0 .raises).1 (by decide),
   (header_select_amended none (some "did:b") emptyCache 0 .raises).2.1 (by decide)⟩

/-! ## C8: cache keys only grow -/

/-- The cache after `require_agent` is either untouched or the cache left by
one `verify_agent` run on the selected identifier. -/
theorem require_agent_cache_cases (x y : Option String) (c : Cache) (now : Nat)
    (remote : RemoteResult) :
    (require_agent x y c now remote).cache = c ∨
    ∃ s, (require_agent x y c now remote).cache = (verify_agent s c now remote).cache := by
  rcases hp : pyOr x y with _ | s
  · left
    simp [require_agent, hp]
  · by_cases hs : s = ""
    · subst hs
      left
      simp [require_agent, hp]
    · right
      refine ⟨s, ?_⟩
      rcases hr : (verify_agent s c now remote).ret with _ | a <;>
        simp [require_agent, hp, hs, hr]

/-- The cache after `optional_agent` is either untouched or the cache left by
one `verify_agent` run on the selected identifier. -/
theorem optional_agent_cache_cases (x y : Option String) (c : Cache) (now : Nat)
    (remote : RemoteResult) :
    (optional_agent x y c now remote).cache = c ∨
    ∃ s, (optional_agent x y c now remote).cache = (verify_agent s c now remote).cache := by
  rcases hp : pyOr x y with _ | s
  · left
    simp [optional_agent, hp]
  · by_cases hs : s = ""
    · subst hs
      left
      simp [optional_agent, hp]
    · right
      exact ⟨s, by simp [optional_agent, hp, hs]⟩

/-- The reputation gate never touches the cache beyond what `require_agent`
did. -/
theorem require_reputation_cache_eq (T : Rat) (x y : Option String) (c : Cache) (now : Nat)
    (remote : RemoteResult) :
    (require_reputation T x y c now remote).cache = (require_agent x y c now remote).cache := by
  rcases hg : (require_agent x y c now remote).result with e | a
  · simp [require_reputation, hg]
  · by_cases hlt : a.reputation < T <;> simp [require_reputation, hg, hlt]

/-- C8: every key present in the cache before any of the four operations is
still present afterwards: no entry is ever removed, entries are only
shadowed by newer writes under the same key. -/
theorem cache_keys_monotone (did : String) (T : Rat) (x y : Option String) (c : Cache)
    (now : Nat) (remote : RemoteResult) (k : String) (h : (c k).isSome = true) :
    ((verify_agent did c now remote).cache k).isSome = true ∧
    ((require_agent x y c now remote).cache k).isSome = true ∧
    ((optional_agent x y c now remote).cache k).isSome = true ∧
    ((require_reputation T x y c now remote).cache k).isSome = true := by
  have hv : ∀ s, ((verify_agent s c now remote).cache k).isSome = true := by
    intro s
    rcases verify_agent_cache_cases s c now remote with hc | ⟨v, hc⟩
    · rw [hc]; exact h
    · rw [hc]; exact cacheSet_isSome c s k v h
  have hreq : ((require_agent x y c now remote).cache k).isSome = true := by
    rcases require_agent_cache_cases x y c now remote with hc | ⟨s, hc⟩
    · rw [hc]; exact h
    · rw [hc]; exact hv s
  refine ⟨hv did, hreq, ?_, ?_⟩
  · rcases optional_agent_cache_cases x y c now remote with hc | ⟨s, hc⟩
    · rw [hc]; exact h
    · rw [hc]; exact hv s
  · rw [require_reputation_cache_eq]
    exact hreq

/-- Witness for C8: a key stored earlier survives all four operations, here
run on a different identifier with an approving remote. -/
theorem cache_keys_monotone_witness :
    (((verify_agent "did:x:1" (cacheSet emptyCache "k0" (0, none)) 1000
        (.resp 200 ⟨true, "did:x:1", "A", 5, 3, "2024", 0, "u"⟩)).cache "k0").isSome = true) ∧
    (((require_agent (some "did:x:1") none (cacheSet emptyCache "k0" (0, none)) 1000
        (.resp 200 ⟨true, "did:x:1", "A", 5, 3, "2024", 0, "u"⟩)).cache "k0").isSome = true) ∧
    (((optional_agent (some "did:x:1") none (cacheSet emptyCache "k0" (0, none)) 1000
        (.resp 200 ⟨true, "did:x:1", "A", 5, 3, "2024", 0, "u"⟩)).cache "k0").isSome = true) ∧
    (((require_reputation 4 (some "did:x:1") none (cacheSet emptyCache "k0" (0, none)) 1000
        (.resp 200 ⟨true, "did:x:1", "A", 5, 3, "2024", 0, "u"⟩)).cache "k0").isSome = true) :=
  cache_keys_monotone "did:x:1" 4 (some "did:x:1") none (cacheSet emptyCache "k0" (0, none))
    1000 (.resp 200 ⟨true, "did:x:1", "A", 5, 3, "2024", 0, "u"⟩) "k0" (by decide)

/-! ## C9: records returned and cached are verified -/

/-- Invariant: every identity record stored in the cache has its verified
flag set. -/
def cacheInv (c : Cache) : Prop :=
  ∀ k t a, c k = some (t, some a) → a.verified = true

/-- The empty cache satisfies the verified-records invariant. -/
theorem cacheInv_empty : cacheInv emptyCache := by
  intro k t a hk
  simp [emptyCache] at hk

/-- A dict assignment stores its value under its key. -/
theorem cacheSet_self (c : Cache) (k : String) (v : Nat × Option AgentIdentity) :
    cacheSet c k v k = some v := by
  simp [cacheSet]

/-- Writing a verified record preserves the invariant. -/
theorem cacheInv_set_some (c : Cache) (did : String) (now : Nat) (d : AgentIdentity)
    (hinv : cacheInv c) (hd : d.verified = true) :
    cacheInv (cacheSet c did (now, some d)) := by
  intro k t a hk
  by_cases hkd : k = did
  · subst hkd
    rw [cacheSet_self] at hk
    injection hk with hpair
    injection hpair with h1 h2
    injection h2 with h3
    subst h3
    exact hd
  · rw [cacheSet_frame c did k _ hkd] at hk
    exact hinv k t a hk

/-- Writing a cached negative preserves the invariant. -/
theorem cacheInv_set_none (c : Cache) (did : String) (now : Nat) (hinv : cacheInv c) :
    cacheInv (cacheSet c did (now, none)) := by
  intro k t a hk
  by_cases hkd : k = did
  · subst hkd
    simp [cacheSet] at hk
  · rw [cacheSet_frame c did k _ hkd] at hk
    exact hinv k t a hk

/-- The remote-call body only returns or stores verified records. -/
theorem fetchAndCache_verified (did : String) (c : Cache) (now : Nat) (remote : RemoteResult)
    (hinv : cacheInv c) :
    (∀ a, (fetchAndCache did c now remote).ret = some a → a.verified = true) ∧
    cacheInv (fetchAndCache did c now remote).cache := by
  cases remote with
  | raises => exact ⟨fun a ha => by simp [fetchAndCache] at ha, hinv⟩
  | resp s d =>
    rcases eq_or_ne s 200 with rfl | hs
    · by_cases hd : d.verified
      · refine ⟨fun a ha => ?_, ?_⟩
        · have hda : d = a := by simpa [fetchAndCache, hd] using ha
          rw [← hda]
          exact hd
        · have hc : (fetchAndCache did c now (.resp 200 d)).cache
              = cacheSet c did (now, some d) := by simp [fetchAndCache, hd]
          rw [hc]
          exact cacheInv_set_some c did now d hinv hd
      · refine ⟨fun a ha => by simp [fetchAndCache, hd] at ha, ?_⟩
        have hc : (fetchAndCache did c now (.resp 200 d)).cache
            = cacheSet c did (now, none) := by simp [fetchAndCache, hd]
        rw [hc]
        exact cacheInv_set_none c did now hinv
    · refine ⟨fun a ha => by simp [fetchAndCache, hs] at ha, ?_⟩
      have hc : (fetchAndCache did c now (.resp s d)).cache = c := by
        simp [fetchAndCache, hs]
      rw [hc]
      exact hinv

/-- C9: starting from a cache all of whose stored records are verified (as
the initially empty `_cache` is, see `cacheInv_empty`), any record that
`verify_agent` returns has its verified flag true, and the cache afterwards
again contains only verified records - so every record ever stored in the
cache is verified. -/
theorem verify_agent_verified_inv (did : String) (c : Cache) (now : Nat)
    (remote : RemoteResult) (hinv : cacheInv c) :
    (∀ a, (verify_agent did c now remote).ret = some a → a.verified = true) ∧
    cacheInv (verify_agent did c now remote).cache := by
  rcases hc : c did with _ | ⟨t, v⟩
  · have he : verify_agent did c now remote = fetchAndCache did c now remote := by
      simp [verify_agent, hc]
    rw [he]
    exact fetchAndCache_verified did c now remote hinv
  · by_cases hf : now < t + CACHE_TTL
    · have he : verify_agent did c now remote = ⟨v, c, 0⟩ := by
        simp [verify_agent, hc, hf]
      rw [he]
      refine ⟨fun a ha => ?_, hinv⟩
      have hv : v = some a := ha
      exact hinv did t a (by rw [hc, hv])
    · have he : verify_agent did c now remote = fetchAndCache did c now remote := by
        simp [verify_agent, hc, hf]
      rw [he]
      exact fetchAndCache_verified did c now remote hinv

/-- Witness for C9: the record returned for an approving 200 response on the
empty cache has its verified flag true. -/
theorem verify_agent_verified_inv_witness :
    (⟨true, "did:x:1", "A", 5, 3, "2024", 0, "u"⟩ : AgentIdentity).verified = true :=
  (verify_agent_verified_inv "did:x:1" emptyCache 0
      (.resp 200 ⟨true, "did:x:1", "A", 5, 3, "2024", 0, "u"⟩)
      (fun k t a hk => by simp [emptyCache] at hk)).1
    ⟨true, "did:x:1", "A", 5, 3, "2024", 0, "u"⟩ rfl

/-! ## C10: verify_agent mutates at most its own key -/

/-- C10: for every key other than the argument `did`, the cache entry (both
timestamp and stored value) is identical before and after a `verify_agent`
call. -/
theorem verify_agent_frame (did k : String) (c : Cache) (now : Nat) (remote : RemoteResult)
    (hk : k ≠ did) :
    (verify_agent did c now remote).cache k = c k := by
  rcases verify_agent_cache_cases did c now remote with hc | ⟨v, hc⟩
  · rw [hc]
  · rw [hc]
    exact cacheSet_frame c did k v hk

/-- Witness for C10: verifying "did:x:1" with an approving remote (which
writes the cache) leaves the entry under "other" untouched. -/
theorem verify_agent_frame_witness :
    (verify_agent "did:x:1" (cacheSet emptyCache "other" (3, none)) 1000
        (.resp 200 ⟨true, "did:x:1", "A", 5, 3, "2024", 0, "u"⟩)).cache "other"
      = cacheSet emptyCache "other" (3, none) "other" :=
  verify_agent_frame "did:x:1" "other" (cacheSet emptyCache "other" (3, none)) 1000
    (.resp 200 ⟨true, "did:x:1", "A", 5, 3, "2024", 0, "u"⟩) (by decide)

end AgentMW
